import Mathlib

/-!
Shallow embedding of the crypto screening bot
(`crypto_analyzer.py`, `technical_analyzer.py`, `sentiment_analyzer.py`).

Numbers are modelled as rationals (`ℚ`).  A pandas `NaN` cell (a lookback
window that is not yet full) is modelled as `none : Option ℚ`; every
comparison against such a cell follows the float semantics `NaN cmp x = False`
via the helpers `oGt` / `oLt` below.  Wall-clock timestamps
(`datetime.now().strftime(...)`) are modelled as an explicit `now : String`
argument threaded into each result record.  Network fetches (exchange, Twitter,
Reddit) are I/O collaborators: their results enter the embedding as explicit
arguments (candle series, ticker fields, per-platform polarity lists).
-/

/-- Comparison `a > b` on possibly-unavailable (NaN) values: any comparison
involving an unavailable value is `False`, as for float NaN in Python. -/
def oGt : Option ℚ → Option ℚ → Bool
  | some a, some b => decide (b < a)
  | _, _ => false

/-- Comparison `a < b` on possibly-unavailable (NaN) values; `False` when a
side is unavailable. -/
def oLt : Option ℚ → Option ℚ → Bool
  | some a, some b => decide (a < b)
  | _, _ => false

/-- Comparison `a ≤ b` on possibly-unavailable (NaN) values; `False` when a
side is unavailable. -/
def oLe : Option ℚ → Option ℚ → Bool
  | some a, some b => decide (a ≤ b)
  | _, _ => false

/-- `series.mean()` of pandas: `none` (NaN) on an empty column, else the
arithmetic mean. -/
def listMean (xs : List ℚ) : Option ℚ :=
  if xs = [] then none else some (xs.sum / xs.length)

/-- Python `round(x, 2)`: rounding to two decimal places.  Exact tie behaviour
at half-cent boundaries (binary-float banker rounding) is abstracted to
round-half-up; no claim depends on a tie. -/
def round2 (x : ℚ) : ℚ := (round (x * 100) : ℤ) / 100

/-- One OHLCV candle row of the fetched dataframe (the timestamp index column
is never read by the analysis and is omitted). -/
structure Candle where
  «open» : ℚ
  high : ℚ
  low : ℚ
  close : ℚ
  volume : ℚ
deriving DecidableEq

/-- The fields of `fetch_ticker` that the analyzer reads. -/
structure Ticker where
  last : ℚ
  «open» : ℚ
  quoteVolume : ℚ
deriving DecidableEq

/-! ## Sentiment analyzer (`sentiment_analyzer.py`) -/

/-- A Reddit submission as consumed by `_analyze_reddit_sentiment`:
`title_polarity` is `TextBlob(post.title).sentiment.polarity`; `body_polarity`
is `some` of the body polarity when `post.selftext` is non-empty (truthy) and
`none` when the body is empty, in which case the source skips the body term. -/
structure RedditPost where
  title_polarity : ℚ
  body_polarity : Option ℚ
deriving DecidableEq

/-- Body of the per-post loop in `_analyze_reddit_sentiment`:
`sentiment = title_polarity * 0.6` plus `body_polarity * 0.4` when the body is
non-empty. -/
def redditPostSentiment (p : RedditPost) : ℚ :=
  let title_weight : ℚ := 0.6
  let body_weight : ℚ := 0.4
  let sentiment := p.title_polarity * title_weight
  match p.body_polarity with
  | some b => sentiment + b * body_weight
  | none => sentiment

/-- `_analyze_reddit_sentiment`: average of the per-post sentiments, `score`
absent (`None`) when no post was found. -/
def analyze_reddit_sentiment (posts : List RedditPost) : Option ℚ :=
  listMean (posts.map redditPostSentiment)

/-- `_analyze_twitter_sentiment`: average of the per-tweet polarities, absent
when no tweet was found. -/
def analyze_twitter_sentiment (sentiments : List ℚ) : Option ℚ :=
  listMean sentiments

/-- Result of `analyze_social_sentiment` (the `details` sub-dict, which no
downstream consumer reads, is omitted). -/
structure SentimentResult where
  combined_score : ℚ
  analysis_time : String
deriving DecidableEq

/-- `analyze_social_sentiment`: combine the per-platform scores (each `none`
when that platform produced no sample) by the weighted sum with weight `1.0`
for Twitter and `0.8` for Reddit; `None` when no platform contributed. -/
def analyze_social_sentiment (now : String) (twitter_score reddit_score : Option ℚ) :
    Option SentimentResult :=
  let acc : ℚ × ℚ := (0, 0)
  let acc := match twitter_score with
    | some sc => (acc.1 + sc * 1.0, acc.2 + 1.0)
    | none => acc
  let acc := match reddit_score with
    | some sc => (acc.1 + sc * 0.8, acc.2 + 0.8)
    | none => acc
  if acc.2 = 0 then none
  else some { combined_score := acc.1 / acc.2, analysis_time := now }

/-- Written from the spec for comparison with the source: the combined
sentiment is the weighted average `Σ wᵢ·pᵢ / Σ wᵢ` over the AVAILABLE
per-platform polarities, weight `1.0` for the primary platform (Twitter) and
`0.8` for the secondary (Reddit); absent when no platform yields a sample. -/
def sentimentWeightedAvgSpec (twitter_score reddit_score : Option ℚ) : Option ℚ :=
  let avail :=
    (match twitter_score with | some t => [((1.0 : ℚ), t)] | none => []) ++
    (match reddit_score with | some r => [((0.8 : ℚ), r)] | none => [])
  if avail = [] then none
  else some ((avail.map fun wp => wp.1 * wp.2).sum / (avail.map fun wp => wp.1).sum)

/-- `get_sentiment_summary`: qualitative five-band summary of the combined
sentiment score. -/
def get_sentiment_summary (sentiment_data : Option SentimentResult) : String :=
  match sentiment_data with
  | none => "Sentiment analysis unavailable"
  | some d =>
    let score := d.combined_score
    if score ≥ 0.5 then "Very Positive - Strong community enthusiasm and support"
    else if score ≥ 0.2 then "Positive - Generally favorable community sentiment"
    else if score ≥ -0.2 then "Neutral - Mixed or balanced community sentiment"
    else if score ≥ -0.5 then "Negative - Significant community concerns"
    else "Very Negative - Strong community skepticism or criticism"

/-! ## Technical analyzer (`technical_analyzer.py`)

Last-row indicator values.  The source computes whole indicator columns with
pandas / the `ta` library and then reads only `df.iloc[-1]` (and, unused,
`df.iloc[-2]`); the embedding computes the last-row value of each column
directly.  A row whose lookback window is not yet full (`min_periods` of the
`ta` library / `rolling`) is `none`. -/

/-- The last `w` elements of a list (the rolling window ending at the last
row). -/
def lastWindow (w : ℕ) (xs : List ℚ) : List ℚ := xs.drop (xs.length - w)

/-- Last element of a numeric column, the `df.iloc[-1]` read.  The default `0`
is unreachable: every caller is guarded by a length check of at least 2. -/
def lastD (xs : List ℚ) : ℚ := xs.getLastD 0

/-- Last-row value of `rolling(window=w).mean()`: `none` while the window is
not yet full. -/
def smaLast (w : ℕ) (xs : List ℚ) : Option ℚ :=
  if xs.length < w then none
  else some ((lastWindow w xs).sum / w)

/-- Last-row value of `rolling(window=w).std(ddof=0)` SQUARED, i.e. the
population variance of the trailing window (the standard deviation itself is
irrational over `ℚ`; `bbPosition` consumes the variance through exactly
equivalent squared comparisons). -/
def varLast (w : ℕ) (xs : List ℚ) : Option ℚ :=
  if xs.length < w then none
  else
    let ws := lastWindow w xs
    let m := ws.sum / w
    some ((ws.map fun x => (x - m) ^ 2).sum / w)

/-- One step of an exponential moving average with smoothing factor `α`
(`adjust=False` recurrence of pandas `ewm`). -/
def emaStep (α e x : ℚ) : ℚ := α * x + (1 - α) * e

/-- `adjust=False` exponential moving average of `e :: xs`, final value. -/
def emaFrom (α : ℚ) : ℚ → List ℚ → ℚ
  | e, [] => e
  | e, x :: xs => emaFrom α (emaStep α e x) xs

/-- Final value of the `adjust=False` EMA of a list with smoothing factor `α`;
`none` on the empty list. -/
def emaLastAlpha (α : ℚ) : List ℚ → Option ℚ
  | [] => none
  | x :: xs => some (emaFrom α x xs)

/-- Running `adjust=False` EMA column (value at every row). -/
def emaScanFrom (α : ℚ) : ℚ → List ℚ → List ℚ
  | e, [] => [e]
  | e, x :: xs => e :: emaScanFrom α (emaStep α e x) xs

/-- EMA column with standard span smoothing `α = 2/(span+1)`. -/
def emaScan (span : ℕ) : List ℚ → List ℚ
  | [] => []
  | x :: xs => emaScanFrom (2 / ((span : ℚ) + 1)) x xs

/-- Last-row MACD line of the `ta` library (`EMA₁₂ − EMA₂₆`, `adjust=False`,
NaN until `min_periods = 26` rows are available). -/
def macdLast (closes : List ℚ) : Option ℚ :=
  if closes.length < 26 then none
  else
    match emaLastAlpha (2 / 13) closes, emaLastAlpha (2 / 27) closes with
    | some a, some b => some (a - b)
    | _, _ => none

/-- The MACD column restricted to its non-NaN rows (index ≥ 25). -/
def macdValidColumn (closes : List ℚ) : List ℚ :=
  (List.zipWith (fun a b => a - b) (emaScan 12 closes) (emaScan 26 closes)).drop 25

/-- Last-row MACD signal line: EMA₉ (`adjust=False`, `min_periods = 9`) over
the non-NaN MACD rows; NaN until 9 such rows exist (34 candles). -/
def macdSignalLast (closes : List ℚ) : Option ℚ :=
  let valid := macdValidColumn closes
  if valid.length < 9 then none
  else emaLastAlpha (2 / 10) valid

/-- `close.diff(1)` without its leading NaN: consecutive differences. -/
def diffs (xs : List ℚ) : List ℚ :=
  (xs.zip xs.tail).map fun p => p.2 - p.1

/-- Last-row RSI of the `ta` library (window 14): smoothed average gain and
loss via `ewm(alpha=1/14, min_periods=14, adjust=False)` over the diffs, then
`100 - 100/(1 + gain/loss)`.  NaN until 14 diffs (15 candles) exist.  The
float edge cases are kept: all-zero gain and loss give `0/0 = NaN` (`none`);
zero loss with positive gain gives `rs = +inf`, hence RSI `100`. -/
def rsiLast (closes : List ℚ) : Option ℚ :=
  let ds := diffs closes
  if ds.length < 14 then none
  else
    match emaLastAlpha (1 / 14) (ds.map fun d => max d 0),
          emaLastAlpha (1 / 14) (ds.map fun d => max (-d) 0) with
    | some up, some dn =>
      if dn = 0 then (if up = 0 then none else some 100)
      else some (100 - 100 / (1 + up / dn))
    | _, _ => none

inductive TrendTag | bullish | bearish
deriving DecidableEq

inductive RsiCond | overbought | oversold | neutral
deriving DecidableEq

inductive BbPos | upper | lower | middle
deriving DecidableEq

inductive VolTrend | increasing | decreasing
deriving DecidableEq

structure TrendAnalysis where
  macd_trend : TrendTag
  sma_trend : TrendTag
  long_term_trend : TrendTag
deriving DecidableEq

structure MomentumAnalysis where
  rsi_value : Option ℚ
  rsi_condition : RsiCond
deriving DecidableEq

/-- The `bb_width` entry, `(bb_high - bb_low) / bb_mid = 4σ/SMA₂₀`, is
irrational over `ℚ` and is read by no downstream consumer; it is omitted from
the embedded record. -/
structure VolatilityAnalysis where
  bb_position : BbPos
deriving DecidableEq

structure VolumeAnalysis where
  volume_trend : VolTrend
  volume_change : Option ℚ
deriving DecidableEq

structure PriceActionAnalysis where
  price_change_24h : Option ℚ
  price_change_7d : Option ℚ
  above_200_sma : Bool
deriving DecidableEq

structure Analysis where
  trend : TrendAnalysis
  momentum : MomentumAnalysis
  volatility : VolatilityAnalysis
  volume : VolumeAnalysis
  price_action : PriceActionAnalysis
deriving DecidableEq

/-- `_analyze_trend`: each comparison against a NaN cell is `False`, so an
unavailable moving average yields the `bearish` branch. -/
def analyze_trend (s : List Candle) : TrendAnalysis :=
  let closes := s.map Candle.close
  { macd_trend := if oGt (macdLast closes) (macdSignalLast closes) then .bullish else .bearish
    sma_trend := if oGt (smaLast 20 closes) (smaLast 50 closes) then .bullish else .bearish
    long_term_trend := if oGt (some (lastD closes)) (smaLast 200 closes) then .bullish else .bearish }

/-- `rsi_condition` classification of `_analyze_momentum`: strict `> 70` for
overbought, strict `< 30` for oversold, else neutral (NaN is neutral). -/
def rsi_condition (rsi : Option ℚ) : RsiCond :=
  if oGt rsi (some 70) then .overbought
  else if oLt rsi (some 30) then .oversold
  else .neutral

/-- `_analyze_momentum`. -/
def analyze_momentum (s : List Candle) : MomentumAnalysis :=
  let r := rsiLast (s.map Candle.close)
  { rsi_value := r, rsi_condition := rsi_condition r }

/-- `bb_position` of `_analyze_volatility`: `close > mavg + 2σ → upper`,
`close < mavg − 2σ → lower`, else (including NaN bands) `middle`.  With
`σ = √v ≥ 0` the source comparisons are expressed exactly on squares:
`close > m + 2σ ↔ close − m > 0 ∧ (close − m)² > 4v`. -/
def bbPosition (close : ℚ) (mavg var : Option ℚ) : BbPos :=
  match mavg, var with
  | some m, some v =>
    if close - m > 0 ∧ (close - m) ^ 2 > 4 * v then .upper
    else if m - close > 0 ∧ (m - close) ^ 2 > 4 * v then .lower
    else .middle
  | _, _ => .middle

/-- `_analyze_volatility`. -/
def analyze_volatility (s : List Candle) : VolatilityAnalysis :=
  let closes := s.map Candle.close
  { bb_position := bbPosition (lastD closes) (smaLast 20 closes) (varLast 20 closes) }

/-- `_analyze_volume`: trend against the 20-period volume SMA (NaN compares
`False`, hence `decreasing`), relative change NaN while the window is not
full. -/
def analyze_volume (s : List Candle) : VolumeAnalysis :=
  let vols := s.map Candle.volume
  let vsma := smaLast 20 vols
  { volume_trend := if oGt (some (lastD vols)) vsma then .increasing else .decreasing
    volume_change := match vsma with
      | some m => some ((lastD vols - m) / m)
      | none => none }

/-- Last-row value of `close.pct_change(periods=n)`: NaN until row `n`. -/
def pctChangeLast (n : ℕ) (xs : List ℚ) : Option ℚ :=
  if xs.length < n + 1 then none
  else
    let prev := lastD (xs.take (xs.length - n))
    some ((lastD xs - prev) / prev)

/-- `_analyze_price_action`. -/
def analyze_price_action (s : List Candle) : PriceActionAnalysis :=
  let closes := s.map Candle.close
  { price_change_24h := pctChangeLast 1 closes
    price_change_7d := pctChangeLast 7 closes
    above_200_sma := oGt (some (lastD closes)) (smaLast 200 closes) }

/-- `_analyze_indicators`. -/
def analyze_indicators (s : List Candle) : Analysis :=
  { trend := analyze_trend s
    momentum := analyze_momentum s
    volatility := analyze_volatility s
    volume := analyze_volume s
    price_action := analyze_price_action s }

/-- `_calculate_technical_score`: neutral baseline 5, additive adjustments,
clamped into `[1, 10]`. -/
def calculate_technical_score (analysis : Analysis) : ℚ :=
  let score : ℚ := 5
  let score := if analysis.trend.macd_trend = .bullish then score + 0.5 else score
  let score := if analysis.trend.sma_trend = .bullish then score + 0.5 else score
  let score := if analysis.trend.long_term_trend = .bullish then score + 1 else score
  let rsi := analysis.momentum.rsi_value
  let score :=
    if oLe (some 40) rsi ∧ oLe rsi (some 60) then score + 1
    else if oGt rsi (some 70) ∨ oLt rsi (some 30) then score - 1
    else score
  let score := if analysis.volatility.bb_position = .middle then score + 0.5 else score
  let score := if analysis.volume.volume_trend = .increasing then score + 0.5 else score
  let score := if oGt analysis.price_action.price_change_24h (some 0) then score + 0.5 else score
  let score := if oGt analysis.price_action.price_change_7d (some 0) then score + 0.5 else score
  max 1 (min 10 score)

/-- `_generate_signals`: advisory strings, order-preserving. -/
def generate_signals (analysis : Analysis) : List String :=
  (if analysis.trend.macd_trend = .bullish ∧ analysis.trend.sma_trend = .bullish ∧
      analysis.trend.long_term_trend = .bullish then
    ["Strong uptrend confirmed by multiple indicators"]
  else if analysis.trend.macd_trend = .bearish ∧ analysis.trend.sma_trend = .bearish ∧
      analysis.trend.long_term_trend = .bearish then
    ["Strong downtrend confirmed by multiple indicators"]
  else []) ++
  (if oGt analysis.momentum.rsi_value (some 70) then
    ["Overbought conditions - potential reversal point"]
  else if oLt analysis.momentum.rsi_value (some 30) then
    ["Oversold conditions - potential reversal point"]
  else []) ++
  (if analysis.volume.volume_trend = .increasing ∧ oGt analysis.volume.volume_change (some 0.5) then
    ["Significant volume increase - strong trend confirmation"]
  else []) ++
  (if analysis.price_action.above_200_sma then
    ["Price above 200 SMA - long-term uptrend"]
  else [])

/-- Result dict of `analyze_technical_indicators`. -/
structure TechResult where
  technical_score : ℚ
  analysis : Analysis
  signals : List String
  analysis_time : String
deriving DecidableEq

/-- `analyze_technical_indicators`: with fewer than 2 rows the source raises
inside `_analyze_indicators` (`df.iloc[-2]`) and the surrounding
`try/except` returns `None`; otherwise the full analysis dict is built. -/
def analyze_technical_indicators (now : String) (s : List Candle) : Option TechResult :=
  if s.length < 2 then none
  else
    let analysis := analyze_indicators s
    some { technical_score := calculate_technical_score analysis
           analysis := analysis
           signals := generate_signals analysis
           analysis_time := now }

/-! ## Crypto analyzer (`crypto_analyzer.py`) -/

/-- Volatility stanza of `calculate_risk_score` (0-3 points). -/
def riskVolatilityStep (volatility r : ℚ) : ℚ :=
  if volatility > 50 then r + 3
  else if volatility > 30 then r + 2
  else if volatility > 10 then r + 1
  else r

/-- Volume-stability stanza of `calculate_risk_score` (0-2 points);
`volume_change` is NaN (`none`) when the candle frame is empty, and a NaN
comparison is `False`. -/
def riskVolumeStep (volume_change : Option ℚ) (r : ℚ) : ℚ :=
  if oLt volume_change (some (-50000)) then r + 2
  else if oLt volume_change (some (-20000)) then r + 1
  else r

/-- Price-stability stanza of `calculate_risk_score` (0-2 points). -/
def riskPriceStep (price_change r : ℚ) : ℚ :=
  if |price_change| > 30 then r + 2
  else if |price_change| > 15 then r + 1
  else r

/-- Technical-indicator stanza of `calculate_risk_score` (0-2 points). -/
def riskTechStep (technical_analysis : Option TechResult) (r : ℚ) : ℚ :=
  match technical_analysis with
  | some t =>
    let r :=
      if t.analysis.volatility.bb_position = .upper ∨ t.analysis.volatility.bb_position = .lower
      then r + 1 else r
    if t.analysis.momentum.rsi_condition = .overbought ∨
       t.analysis.momentum.rsi_condition = .oversold
    then r + 1 else r
  | none => r

/-- Sentiment stanza of `calculate_risk_score` (0-1 point). -/
def riskSentimentStep (sentiment_analysis : Option SentimentResult) (r : ℚ) : ℚ :=
  match sentiment_analysis with
  | some s => if s.combined_score < -0.5 then r + 1 else r
  | none => r

/-- `calculate_risk_score`: the sequential `risk_score += ...` stanzas of the
source, applied in order starting from 0. -/
def calculate_risk_score (volatility : ℚ) (volume_change : Option ℚ) (price_change : ℚ)
    (technical_analysis : Option TechResult) (sentiment_analysis : Option SentimentResult) : ℚ :=
  riskSentimentStep sentiment_analysis
    (riskTechStep technical_analysis
      (riskPriceStep price_change
        (riskVolumeStep volume_change
          (riskVolatilityStep volatility 0))))

/-- `df.close.pct_change().mean() * 100` of `assess_potential`: NaN (`none`)
when fewer than 2 closes exist (the lone `pct_change` row is NaN and dropped
by `mean`). -/
def priceTrendPct (closes : List ℚ) : Option ℚ :=
  (listMean ((diffs closes).zip closes |>.map fun p => p.1 / p.2)).map (fun m => m * 100)

/-- `assess_potential`: neutral baseline 5, additive adjustments, clamped into
`[1, 10]`.  The source also receives the ticker but never reads it. -/
def assess_potential (closes : List ℚ) (technical_analysis : Option TechResult)
    (sentiment_analysis : Option SentimentResult) : ℚ :=
  let potential_score : ℚ := 5
  let potential_score := match technical_analysis with
    | some t =>
      let potential_score :=
        if t.analysis.trend.macd_trend = .bullish ∧ t.analysis.trend.sma_trend = .bullish
        then potential_score + 1 else potential_score
      let potential_score :=
        if t.analysis.volume.volume_trend = .increasing
        then potential_score + 1 else potential_score
      if oGt t.analysis.momentum.rsi_value (some 50)
      then potential_score + 0.5 else potential_score
    | none => potential_score
  let potential_score := match sentiment_analysis with
    | some s =>
      if s.combined_score > 0 then potential_score + min 2 (s.combined_score * 2)
      else potential_score
    | none => potential_score
  let potential_score := match priceTrendPct closes with
    | some pt =>
      if pt > 5 then potential_score + 1
      else if pt > 2 then potential_score + 0.5
      else potential_score
    | none => potential_score
  max 1 (min 10 potential_score)

/-- `calculate_combined_score`: base from potential and risk, plus the
technical term when technical analysis is present, plus the rescaled sentiment
term when sentiment is present; rounded to two decimals. -/
def calculate_combined_score (risk_score potential_score : ℚ)
    (technical_analysis : Option TechResult) (sentiment_analysis : Option SentimentResult) : ℚ :=
  let combined_score := potential_score * 0.4 + (10 - risk_score) * 0.3
  let combined_score := match technical_analysis with
    | some t => combined_score + t.technical_score * 0.2
    | none => combined_score
  let combined_score := match sentiment_analysis with
    | some s => combined_score + ((s.combined_score + 1) / 2) * 10 * 0.1
    | none => combined_score
  round2 combined_score

/-- `generate_recommendation`: headline from the combined score, one line per
technical signal, risk and potential levels, and the sentiment summary when
sentiment is present; joined by newlines.  Numeric rendering of the scores is
abstracted by `toString` on `ℚ`. -/
def generate_recommendation (risk_score potential_score : ℚ)
    (technical_analysis : Option TechResult) (sentiment_analysis : Option SentimentResult) :
    String :=
  let combined_score :=
    calculate_combined_score risk_score potential_score technical_analysis sentiment_analysis
  let headline :=
    if combined_score ≥ 8 then
      "Strong Buy - Exceptional opportunity with high potential and managed risk"
    else if combined_score ≥ 7 then "Buy - Favorable conditions for investment"
    else if combined_score ≥ 6 then "Consider - Positive indicators with some caution"
    else "Hold - Monitor for better entry points"
  let techLines := match technical_analysis with
    | some t => t.signals.map fun signal => "Technical: " ++ signal
    | none => []
  let risk_level :=
    if risk_score ≤ 3 then "Low" else if risk_score ≤ 6 then "Moderate" else "High"
  let riskLine := "Risk Level: " ++ risk_level ++ " (Score: " ++ toString risk_score ++ "/10)"
  let potential_level :=
    if potential_score ≥ 7 then "High" else if potential_score ≥ 5 then "Moderate" else "Low"
  let potentialLine :=
    "Potential: " ++ potential_level ++ " (Score: " ++ toString potential_score ++ "/10)"
  let sentimentLines := match sentiment_analysis with
    | some s => ["Market Sentiment: " ++ get_sentiment_summary (some s)]
    | none => []
  String.intercalate "\n" (headline :: techLines ++ [riskLine, potentialLine] ++ sentimentLines)

/-- The result dict of `analyze_coin` (a `ScoredCandidate`). -/
structure Candidate where
  symbol : String
  current_price : ℚ
  price_change_24h : ℚ
  daily_volume : ℚ
  risk_score : ℚ
  potential_score : ℚ
  combined_score : ℚ
  technical_analysis : Option TechResult
  sentiment_analysis : Option SentimentResult
  analysis_time : String
  recommendation : String
deriving DecidableEq

/-- `analyze_coin`.  The candle series and the two per-platform sentiment
scores stand for the fetched collaborator data; `volatility` is
`df.close.std(ddof=1) / df.close.mean() * 100`, irrational over `ℚ` and hence
taken as an input here (only its comparisons against 10/30/50 are consumed).
`ticker.open = 0` makes the source raise `ZeroDivisionError`, caught by its
own `try/except` into `None`. -/
def analyze_coin (now : String) (symbol : String) (ticker : Ticker) (series : List Candle)
    (twitter_score reddit_score : Option ℚ) (volatility : ℚ) : Option Candidate :=
  if ticker.«open» = 0 then none
  else
    let technical_analysis := analyze_technical_indicators now series
    let sentiment_analysis := analyze_social_sentiment now twitter_score reddit_score
    let price_change_24h := (ticker.last - ticker.«open») / ticker.«open» * 100
    let volume_change_24h :=
      (listMean (series.map Candle.volume)).map fun m => ticker.quoteVolume - m
    let risk_score :=
      calculate_risk_score volatility volume_change_24h price_change_24h
        technical_analysis sentiment_analysis
    let potential_score :=
      assess_potential (series.map Candle.close) technical_analysis sentiment_analysis
    let combined_score :=
      calculate_combined_score risk_score potential_score technical_analysis sentiment_analysis
    if combined_score ≥ 6 then
      some { symbol := symbol
             current_price := ticker.last
             price_change_24h := price_change_24h
             daily_volume := ticker.quoteVolume
             risk_score := risk_score
             potential_score := potential_score
             combined_score := combined_score
             technical_analysis := technical_analysis
             sentiment_analysis := sentiment_analysis
             analysis_time := now
             recommendation :=
               generate_recommendation risk_score potential_score
                 technical_analysis sentiment_analysis }
    else none

/-! ## Screening orchestrator (`get_promising_coins`) -/

/-- Descending order on candidates by combined score (the sort key
`lambda x: x.combined_score` with `reverse=True`). -/
def scoreGe (a b : Candidate) : Prop := b.combined_score ≤ a.combined_score

instance : DecidableRel scoreGe := fun a b =>
  inferInstanceAs (Decidable (b.combined_score ≤ a.combined_score))

/-- Insert a candidate into a descending-sorted list, before the first entry
of smaller-or-equal combined score (so earlier input comes first on ties). -/
def insertByScoreDesc (c : Candidate) : List Candidate → List Candidate
  | [] => [c]
  | d :: ds =>
    if d.combined_score ≤ c.combined_score then c :: d :: ds
    else d :: insertByScoreDesc c ds

/-- Model of `promising_coins.sort(key=lambda x: x.combined_score,
reverse=True)` (Timsort: a stable descending sort). -/
def sortByScoreDesc : List Candidate → List Candidate
  | [] => []
  | c :: cs => insertByScoreDesc c (sortByScoreDesc cs)

/-- The per-symbol loop body of `get_promising_coins`: each entry stands for
one `/USDT` symbol passing the volume filter; `Except.error` is an exception
raised while fetching or analyzing that symbol (caught, logged and skipped),
`Except.ok none` a coin whose analysis returned no candidate, `Except.ok
(some c)` a retained candidate. -/
def collectPromising : List (Except String (Option Candidate)) → List Candidate
  | [] => []
  | Except.error _ :: rest => collectPromising rest
  | Except.ok none :: rest => collectPromising rest
  | Except.ok (some c) :: rest => c :: collectPromising rest

/-- `get_promising_coins`: collect per-symbol outcomes, then sort the retained
candidates by combined score, descending. -/
def get_promising_coins (outcomes : List (Except String (Option Candidate))) :
    List Candidate :=
  sortByScoreDesc (collectPromising outcomes)

/-! ## Theorems -/

/-- C1: for every risk score, potential score, technical analysis result and
sentiment result, the combined score equals
`potential*0.4 + (10 - risk)*0.3`, plus `technical_score*0.2` when technical
analysis is present, plus `((combined_sentiment + 1)/2)*10*0.1` when sentiment
is present, rounded to 2 decimal places; when sentiment is absent its term is
omitted entirely (not substituted by zero) and the remaining weights are not
renormalized. -/
theorem combined_score_formula (risk potential : ℚ) (t : TechResult) (s : SentimentResult) :
    calculate_combined_score risk potential (some t) (some s) =
      round2 (potential * 0.4 + (10 - risk) * 0.3 + t.technical_score * 0.2 +
        ((s.combined_score + 1) / 2) * 10 * 0.1) ∧
    calculate_combined_score risk potential (some t) none =
      round2 (potential * 0.4 + (10 - risk) * 0.3 + t.technical_score * 0.2) ∧
    calculate_combined_score risk potential none (some s) =
      round2 (potential * 0.4 + (10 - risk) * 0.3 +
        ((s.combined_score + 1) / 2) * 10 * 0.1) ∧
    calculate_combined_score risk potential none none =
      round2 (potential * 0.4 + (10 - risk) * 0.3) :=
  ⟨rfl, rfl, rfl, rfl⟩

/-- C3: the RSI condition classification uses strict comparison: overbought
exactly when `70 < rsi`, oversold exactly when `rsi < 30`; RSI exactly 70 and
exactly 30, and everything in between, classify as neutral. -/
theorem rsi_condition_strict :
    rsi_condition (some 70) = .neutral ∧ rsi_condition (some 30) = .neutral ∧
    ∀ r : ℚ, (rsi_condition (some r) = .overbought ↔ 70 < r) ∧
      (rsi_condition (some r) = .oversold ↔ r < 30) ∧
      (rsi_condition (some r) = .neutral ↔ 30 ≤ r ∧ r ≤ 70) := by
  refine ⟨by decide, by decide, fun r => ?_⟩
  by_cases h1 : (70 : ℚ) < r
  · have h2 : ¬ r < 30 := by linarith
    simp [rsi_condition, oGt, oLt, h1, h2]
  · by_cases h2 : r < 30
    · simp [rsi_condition, oGt, oLt, h1, h2]
    · simp only [rsi_condition, oGt, oLt]
      simp [h1, h2]
      constructor <;> linarith

/-- C5: the combined sentiment score is the weighted average of the available
per-platform polarities with weight `1.0` for Twitter and `0.8` for Reddit;
when neither platform yields a sample the combined result is absent, not
zero. -/
theorem sentiment_weighted_average (now : String) (tw re : Option ℚ) :
    (analyze_social_sentiment now tw re).map SentimentResult.combined_score =
      sentimentWeightedAvgSpec tw re := by
  cases tw <;> cases re <;>
    simp [analyze_social_sentiment, sentimentWeightedAvgSpec] <;> norm_num <;> ring_nf

/-- C10: a Reddit submission with an empty body contributes `0.6` times its
title polarity to the platform average (the `0.4` body weight is dropped, not
redistributed), hence a value in `[-0.6, 0.6]` whenever the title polarity is
a valid polarity in `[-1, 1]`. -/
theorem reddit_title_only_weight (t : ℚ) :
    redditPostSentiment ⟨t, none⟩ = 0.6 * t ∧
    (|t| ≤ 1 → |redditPostSentiment ⟨t, none⟩| ≤ 0.6) := by
  constructor
  · show t * 0.6 = 0.6 * t
    ring
  · intro h
    show |t * 0.6| ≤ 0.6
    rw [abs_mul, abs_of_nonneg (by norm_num : (0 : ℚ) ≤ 0.6)]
    nlinarith [h]

/-- Witness for C10 at title polarity 1. -/
theorem reddit_title_only_weight_witness :
    |(1 : ℚ)| ≤ 1 ∧ |redditPostSentiment ⟨1, none⟩| ≤ 0.6 :=
  ⟨by norm_num, (reddit_title_only_weight 1).2 (by norm_num)⟩

/-- A value clamped by `max 1 (min 10 ·)` lies in `[1, 10]`. -/
theorem clamp_one_ten_mem (x : ℚ) : 1 ≤ max 1 (min 10 x) ∧ max 1 (min 10 x) ≤ 10 :=
  ⟨le_max_left _ _, max_le (by norm_num) (min_le_left _ _)⟩

/-- Two-decimal rounding keeps a value of `[0, 10]` inside `[0, 10]`. -/
theorem round2_mem_zero_ten (x : ℚ) (h0 : 0 ≤ x) (h1 : x ≤ 10) :
    0 ≤ round2 x ∧ round2 x ≤ 10 := by
  unfold round2
  have hfl : (0 : ℤ) ≤ round (x * 100) := by
    rw [round_eq]
    rw [Int.le_floor]
    push_cast
    linarith
  have hfu : round (x * 100) ≤ 1000 := by
    rw [round_eq]
    have : (⌊x * 100 + 1 / 2⌋ : ℤ) ≤ ⌊(1000 : ℚ) + 1 / 2⌋ := by
      apply Int.floor_le_floor
      linarith
    calc (⌊x * 100 + 1 / 2⌋ : ℤ) ≤ ⌊(1000 : ℚ) + 1 / 2⌋ := this
      _ = 1000 := by norm_num
  constructor
  · apply div_nonneg _ (by norm_num)
    exact_mod_cast hfl
  · rw [div_le_iff (by norm_num : (0 : ℚ) < 100)]
    calc ((round (x * 100) : ℤ) : ℚ) ≤ (1000 : ℤ) := by exact_mod_cast hfu
      _ = 10 * 100 := by norm_num

/-- A technical-analysis record whose features saturate every additive bonus
of `assess_potential`. -/
def clampDemoTech : TechResult :=
  { technical_score := 5
    analysis := { trend := ⟨.bullish, .bullish, .bearish⟩
                  momentum := ⟨some 55, .neutral⟩
                  volatility := ⟨.middle⟩
                  volume := ⟨.increasing, some 1⟩
                  price_action := ⟨some 0, some 0, false⟩ }
    signals := []
    analysis_time := "" }

/-- Each stanza of `calculate_risk_score` increases the accumulator by at
most its stated maximum and never decreases it. -/
theorem risk_step_bounds (v : ℚ) (vc : Option ℚ) (pc : ℚ) (tech : Option TechResult)
    (sent : Option SentimentResult) (r : ℚ) :
    (r ≤ riskVolatilityStep v r ∧ riskVolatilityStep v r ≤ r + 3) ∧
    (r ≤ riskVolumeStep vc r ∧ riskVolumeStep vc r ≤ r + 2) ∧
    (r ≤ riskPriceStep pc r ∧ riskPriceStep pc r ≤ r + 2) ∧
    (r ≤ riskTechStep tech r ∧ riskTechStep tech r ≤ r + 2) ∧
    (r ≤ riskSentimentStep sent r ∧ riskSentimentStep sent r ≤ r + 1) := by
  refine ⟨?_, ?_, ?_, ?_, ?_⟩
  · unfold riskVolatilityStep
    split_ifs <;> constructor <;> linarith
  · unfold riskVolumeStep
    split_ifs <;> constructor <;> linarith
  · unfold riskPriceStep
    split_ifs <;> constructor <;> linarith
  · cases tech <;> simp only [riskTechStep]
    · constructor <;> linarith
    · split_ifs <;> constructor <;> linarith
  · cases sent <;> simp only [riskSentimentStep]
    · constructor <;> linarith
    · split_ifs <;> constructor <;> linarith

/-- C2: every score output lies within its documented bounds —
`technical_score ∈ [1,10]`, `potential_score ∈ [1,10]`, `risk_score ∈ [0,10]`,
and `combined_score ∈ [0,10]` (the latter whenever its inputs are themselves
in range, as the pipeline guarantees); a raw value beyond a bound is clamped
to exactly the bound, exhibited by a saturating input whose raw potential
10.5 comes out as exactly 10. -/
theorem score_bounds :
    (∀ a : Analysis,
      1 ≤ calculate_technical_score a ∧ calculate_technical_score a ≤ 10) ∧
    (∀ (closes : List ℚ) (tech : Option TechResult) (sent : Option SentimentResult),
      1 ≤ assess_potential closes tech sent ∧ assess_potential closes tech sent ≤ 10) ∧
    (∀ (v : ℚ) (vc : Option ℚ) (pc : ℚ) (tech : Option TechResult)
        (sent : Option SentimentResult),
      0 ≤ calculate_risk_score v vc pc tech sent ∧
        calculate_risk_score v vc pc tech sent ≤ 10) ∧
    (∀ (r p : ℚ) (tech : Option TechResult) (sent : Option SentimentResult),
      0 ≤ r → r ≤ 10 → 1 ≤ p → p ≤ 10 →
      (∀ t ∈ tech, 1 ≤ t.technical_score ∧ t.technical_score ≤ 10) →
      (∀ s ∈ sent, -1 ≤ s.combined_score ∧ s.combined_score ≤ 1) →
      0 ≤ calculate_combined_score r p tech sent ∧
        calculate_combined_score r p tech sent ≤ 10) ∧
    assess_potential [100, 110] (some clampDemoTech) (some ⟨1, ""⟩) = 10 := by
  refine ⟨fun a => clamp_one_ten_mem _, fun closes tech sent => clamp_one_ten_mem _,
    ?_, ?_,
    by norm_num [assess_potential, clampDemoTech, priceTrendPct, listMean, diffs, oGt]⟩
  · intro v vc pc tech sent
    have h1 := (risk_step_bounds v vc pc tech sent 0).1
    have h2 := (risk_step_bounds v vc pc tech sent (riskVolatilityStep v 0)).2.1
    have h3 := (risk_step_bounds v vc pc tech sent
      (riskVolumeStep vc (riskVolatilityStep v 0))).2.2.1
    have h4 := (risk_step_bounds v vc pc tech sent
      (riskPriceStep pc (riskVolumeStep vc (riskVolatilityStep v 0)))).2.2.2.1
    have h5 := (risk_step_bounds v vc pc tech sent
      (riskTechStep tech
        (riskPriceStep pc (riskVolumeStep vc (riskVolatilityStep v 0))))).2.2.2.2
    unfold calculate_risk_score
    constructor <;> linarith
  · intro r p tech sent hr0 hr1 hp0 hp1 htech hsent
    cases tech with
    | none =>
      cases sent with
      | none =>
        apply round2_mem_zero_ten <;> simp only [calculate_combined_score] <;> nlinarith
      | some s =>
        have hs := hsent s rfl
        apply round2_mem_zero_ten <;> simp only [calculate_combined_score] <;> nlinarith
    | some t =>
      have ht := htech t rfl
      cases sent with
      | none =>
        apply round2_mem_zero_ten <;> simp only [calculate_combined_score] <;> nlinarith
      | some s =>
        have hs := hsent s rfl
        apply round2_mem_zero_ten <;> simp only [calculate_combined_score] <;> nlinarith

/-- Witness for C2 at concrete in-range inputs. -/
theorem score_bounds_witness :
    0 ≤ calculate_combined_score 0 5 none none ∧
      calculate_combined_score 0 5 none none ≤ 10 :=
  score_bounds.2.2.2.1 0 5 none none (by norm_num) (by norm_num) (by norm_num)
    (by norm_num) (by simp) (by simp)

/-- C4: `analyze_coin` produces a candidate exactly when the combined score is
at least 6 (a score of exactly 6.00 is retained, inclusion uses `>=`);
below-threshold coins yield no candidate record and no error, and every
produced candidate carries the computed combined score. -/
theorem threshold_inclusion (now symbol : String) (ticker : Ticker) (series : List Candle)
    (tw re : Option ℚ) (vol : ℚ) (h : ticker.«open» ≠ 0) :
    ((analyze_coin now symbol ticker series tw re vol).isSome ↔
      6 ≤ calculate_combined_score
        (calculate_risk_score vol
          ((listMean (series.map Candle.volume)).map fun m => ticker.quoteVolume - m)
          ((ticker.last - ticker.«open») / ticker.«open» * 100)
          (analyze_technical_indicators now series)
          (analyze_social_sentiment now tw re))
        (assess_potential (series.map Candle.close)
          (analyze_technical_indicators now series)
          (analyze_social_sentiment now tw re))
        (analyze_technical_indicators now series)
        (analyze_social_sentiment now tw re)) ∧
    ∀ c, analyze_coin now symbol ticker series tw re vol = some c →
      6 ≤ c.combined_score := by
  simp only [analyze_coin, if_neg h]
  split_ifs with hc
  · simp only [Option.isSome_some]
    refine ⟨by simpa using hc, fun c hcEq => ?_⟩
    cases hcEq
    simpa using hc
  · simp only [Option.isSome_none]
    refine ⟨by simpa using hc, fun c hcEq => by cases hcEq⟩

/-- Witness for C4 at a coin with no history and no sentiment (combined
score 5, below threshold). -/
theorem threshold_inclusion_witness :
    (analyze_coin "" "" ⟨1, 1, 0⟩ [] none none 0).isSome ↔
      6 ≤ calculate_combined_score
        (calculate_risk_score 0
          ((listMean (([] : List Candle).map Candle.volume)).map fun m => (0 : ℚ) - m)
          (((1 : ℚ) - 1) / 1 * 100)
          (analyze_technical_indicators "" [])
          (analyze_social_sentiment "" none none))
        (assess_potential (([] : List Candle).map Candle.close)
          (analyze_technical_indicators "" [])
          (analyze_social_sentiment "" none none))
        (analyze_technical_indicators "" [])
        (analyze_social_sentiment "" none none) :=
  (threshold_inclusion "" "" ⟨1, 1, 0⟩ [] none none 0 (by norm_num)).1

/-- Inserting into the descending candidate sort permutes a cons. -/
theorem insertByScoreDesc_perm (c : Candidate) (l : List Candidate) :
    List.Perm (insertByScoreDesc c l) (c :: l) := by
  induction l with
  | nil => exact List.Perm.refl _
  | cons d ds ih =>
    unfold insertByScoreDesc
    split_ifs with h
    · exact List.Perm.refl _
    · exact (List.Perm.cons d ih).trans (List.Perm.swap c d ds)

/-- Inserting into a descending-sorted candidate list keeps it sorted. -/
theorem insertByScoreDesc_sorted (c : Candidate) {l : List Candidate}
    (h : l.Sorted scoreGe) : (insertByScoreDesc c l).Sorted scoreGe := by
  induction l with
  | nil => simp [insertByScoreDesc]
  | cons d ds ih =>
    rw [List.sorted_cons] at h
    unfold insertByScoreDesc
    split_ifs with hcd
    · rw [List.sorted_cons]
      refine ⟨fun b hb => ?_, by rw [List.sorted_cons]; exact h⟩
      rcases List.mem_cons.mp hb with hbd | hbds
      · subst hbd; exact hcd
      · exact le_trans (h.1 b hbds) hcd
    · rw [List.sorted_cons]
      refine ⟨fun b hb => ?_, ih h.2⟩
      rcases List.mem_cons.mp ((insertByScoreDesc_perm c ds).mem_iff.mp hb) with hbc | hbds
      · subst hbc; exact le_of_lt (lt_of_not_le hcd)
      · exact h.1 b hbds

/-- Sorting output of the orchestrator is descending-sorted. -/
theorem sortByScoreDesc_sorted (l : List Candidate) :
    (sortByScoreDesc l).Sorted scoreGe := by
  induction l with
  | nil => simp [sortByScoreDesc]
  | cons c cs ih => exact insertByScoreDesc_sorted c ih

/-- Sorting output is a permutation of its input. -/
theorem sortByScoreDesc_perm (l : List Candidate) :
    List.Perm (sortByScoreDesc l) l := by
  induction l with
  | nil => exact List.Perm.refl _
  | cons c cs ih =>
    exact (insertByScoreDesc_perm c (sortByScoreDesc cs)).trans (List.Perm.cons c ih)

/-- Stability of the insertion: restricted to any one combined-score value,
inserting preserves the original relative order. -/
theorem filter_insertByScoreDesc (q : ℚ) (c : Candidate) (l : List Candidate) :
    (insertByScoreDesc c l).filter (fun x => decide (x.combined_score = q)) =
      (c :: l).filter (fun x => decide (x.combined_score = q)) := by
  induction l with
  | nil => rfl
  | cons d ds ih =>
    unfold insertByScoreDesc
    split_ifs with hcd
    · rfl
    · by_cases hc : c.combined_score = q
      · by_cases hd : d.combined_score = q
        · exact absurd (le_of_eq (by rw [hd, hc])) hcd
        · simp [List.filter_cons, ih, hc, hd]
      · by_cases hd : d.combined_score = q
        · simp [List.filter_cons, ih, hc, hd]
        · simp [List.filter_cons, ih, hc, hd]

/-- Stability of the sort: restricted to any one combined-score value, the
sort is the identity on the input order. -/
theorem filter_sortByScoreDesc (q : ℚ) (l : List Candidate) :
    (sortByScoreDesc l).filter (fun x => decide (x.combined_score = q)) =
      l.filter (fun x => decide (x.combined_score = q)) := by
  induction l with
  | nil => rfl
  | cons c cs ih =>
    calc (insertByScoreDesc c (sortByScoreDesc cs)).filter
          (fun x => decide (x.combined_score = q))
        = (c :: sortByScoreDesc cs).filter (fun x => decide (x.combined_score = q)) :=
          filter_insertByScoreDesc q c _
      _ = (c :: cs).filter (fun x => decide (x.combined_score = q)) := by
          by_cases hc : c.combined_score = q <;> simp [List.filter_cons, hc, ih]

/-- A synthetic retained candidate carrying only a combined score, for the
concrete ranking scenario. -/
def rankDemoCandidate (s : String) (c : ℚ) : Candidate :=
  { symbol := s, current_price := 1, price_change_24h := 0, daily_volume := 0,
    risk_score := 0, potential_score := 5, combined_score := c,
    technical_analysis := none, sentiment_analysis := none,
    analysis_time := "", recommendation := "" }

/-- C6: the orchestrator output is the retained candidate list stable-sorted
by combined score descending — sorted, a permutation of the input, and with
ties kept in input iteration order; in particular combined scores
`[6.5, 9.0, 7.2]` come back ordered `[9.0, 7.2, 6.5]`. -/
theorem ranking_stable_sort (l : List Candidate) :
    (sortByScoreDesc l).Sorted scoreGe ∧
    List.Perm (sortByScoreDesc l) l ∧
    (∀ q : ℚ, (sortByScoreDesc l).filter (fun x => decide (x.combined_score = q)) =
      l.filter (fun x => decide (x.combined_score = q))) ∧
    sortByScoreDesc
        [rankDemoCandidate "A" 6.5, rankDemoCandidate "B" 9, rankDemoCandidate "C" 7.2] =
      [rankDemoCandidate "B" 9, rankDemoCandidate "C" 7.2, rankDemoCandidate "A" 6.5] :=
  ⟨sortByScoreDesc_sorted l, sortByScoreDesc_perm l,
    fun q => filter_sortByScoreDesc q l,
    by norm_num [sortByScoreDesc, insertByScoreDesc, rankDemoCandidate]⟩

/-- Collecting per-symbol outcomes distributes over append. -/
theorem collectPromising_append (xs ys : List (Except String (Option Candidate))) :
    collectPromising (xs ++ ys) = collectPromising xs ++ collectPromising ys := by
  induction xs with
  | nil => rfl
  | cons o os ih =>
    cases o with
    | error e => simpa [collectPromising] using ih
    | ok c? => cases c? <;> simp [collectPromising, ih]

/-- C8: a per-symbol failure is isolated — an exception outcome anywhere in
the batch is skipped, leaving the screening result of the other symbols
unchanged, and the whole run reduces to sorting the successfully retained
candidates (it never aborts). -/
theorem failure_isolation :
    (∀ (xs ys : List (Except String (Option Candidate))) (e : String),
      get_promising_coins (xs ++ Except.error e :: ys) = get_promising_coins (xs ++ ys)) ∧
    (∀ l : List (Except String (Option Candidate)),
      get_promising_coins l =
        sortByScoreDesc (l.filterMap fun o => match o with
          | Except.ok c? => c?
          | Except.error _ => none)) := by
  constructor
  · intro xs ys e
    unfold get_promising_coins
    rw [collectPromising_append, collectPromising_append]
    rfl
  · intro l
    unfold get_promising_coins
    congr 1
    induction l with
    | nil => rfl
    | cons o os ih =>
      cases o with
      | error e => simpa [collectPromising] using ih
      | ok c? => cases c? <;> simp [collectPromising, ih]

/-- The timestamp-free content of a technical analysis result. -/
def techData (t : TechResult) : ℚ × Analysis × List String :=
  (t.technical_score, t.analysis, t.signals)

/-- The timestamp-free content of a scored candidate (all fields except the
explicit `analysis_time` stamps, including those nested in the technical and
sentiment sub-results). -/
def candidateData (c : Candidate) :
    String × ℚ × ℚ × ℚ × ℚ × ℚ × ℚ × Option (ℚ × Analysis × List String) ×
      Option ℚ × String :=
  (c.symbol, c.current_price, c.price_change_24h, c.daily_volume, c.risk_score,
   c.potential_score, c.combined_score, c.technical_analysis.map techData,
   c.sentiment_analysis.map SentimentResult.combined_score, c.recommendation)

/-- The wall-clock argument only lands in the technical result timestamp. -/
theorem tech_time_shift (n₁ n₂ : String) (s : List Candle) :
    analyze_technical_indicators n₁ s =
      (analyze_technical_indicators n₂ s).map fun t => { t with analysis_time := n₁ } := by
  simp only [analyze_technical_indicators]
  split <;> rfl

/-- The wall-clock argument only lands in the sentiment result timestamp. -/
theorem sent_time_shift (n₁ n₂ : String) (tw re : Option ℚ) :
    analyze_social_sentiment n₁ tw re =
      (analyze_social_sentiment n₂ tw re).map fun s => { s with analysis_time := n₁ } := by
  cases tw <;> cases re <;> simp only [analyze_social_sentiment] <;> split_ifs <;> rfl

/-- `calculate_risk_score` reads no timestamp field. -/
theorem risk_time_invariant (v : ℚ) (vc : Option ℚ) (pc : ℚ)
    (tech : Option TechResult) (sent : Option SentimentResult) (n n' : String) :
    calculate_risk_score v vc pc (tech.map fun t => { t with analysis_time := n })
        (sent.map fun s => { s with analysis_time := n' }) =
      calculate_risk_score v vc pc tech sent := by
  cases tech <;> cases sent <;> rfl

/-- `assess_potential` reads no timestamp field. -/
theorem potential_time_invariant (closes : List ℚ)
    (tech : Option TechResult) (sent : Option SentimentResult) (n n' : String) :
    assess_potential closes (tech.map fun t => { t with analysis_time := n })
        (sent.map fun s => { s with analysis_time := n' }) =
      assess_potential closes tech sent := by
  cases tech <;> cases sent <;> rfl

/-- `calculate_combined_score` reads no timestamp field. -/
theorem combined_time_invariant (risk potential : ℚ)
    (tech : Option TechResult) (sent : Option SentimentResult) (n n' : String) :
    calculate_combined_score risk potential (tech.map fun t => { t with analysis_time := n })
        (sent.map fun s => { s with analysis_time := n' }) =
      calculate_combined_score risk potential tech sent := by
  cases tech <;> cases sent <;> rfl

/-- `generate_recommendation` reads no timestamp field. -/
theorem recommendation_time_invariant (risk potential : ℚ)
    (tech : Option TechResult) (sent : Option SentimentResult) (n n' : String) :
    generate_recommendation risk potential (tech.map fun t => { t with analysis_time := n })
        (sent.map fun s => { s with analysis_time := n' }) =
      generate_recommendation risk potential tech sent := by
  cases tech <;> cases sent <;> rfl

/-- C9: the analysis pipeline is deterministic — on an identical candle
series, ticker, sentiment inputs and volatility, two runs (differing only in
wall-clock time) produce identical technical analysis content, identical
sentiment score, and an identical candidate record — scores and
recommendation text included — up to the explicit timestamp fields. -/
theorem pipeline_deterministic (n₁ n₂ symbol : String) (ticker : Ticker)
    (series : List Candle) (tw re : Option ℚ) (vol : ℚ) :
    (analyze_technical_indicators n₁ series).map techData =
      (analyze_technical_indicators n₂ series).map techData ∧
    (analyze_social_sentiment n₁ tw re).map SentimentResult.combined_score =
      (analyze_social_sentiment n₂ tw re).map SentimentResult.combined_score ∧
    (analyze_coin n₁ symbol ticker series tw re vol).map candidateData =
      (analyze_coin n₂ symbol ticker series tw re vol).map candidateData := by
  refine ⟨?_, ?_, ?_⟩
  · rw [tech_time_shift n₁ n₂ series]
    cases analyze_technical_indicators n₂ series <;> rfl
  · rw [sent_time_shift n₁ n₂ tw re]
    cases analyze_social_sentiment n₂ tw re <;> rfl
  · by_cases ho : ticker.«open» = 0
    · simp [analyze_coin, ho]
    · simp only [analyze_coin, if_neg ho]
      rw [tech_time_shift n₁ n₂ series, sent_time_shift n₁ n₂ tw re]
      rw [risk_time_invariant, potential_time_invariant, combined_time_invariant,
        recommendation_time_invariant]
      cases analyze_technical_indicators n₂ series <;>
        cases analyze_social_sentiment n₂ tw re <;>
        split_ifs <;> rfl

/-- A comparison against an unavailable right-hand value is `False`. -/
theorem oGt_none_right (x : Option ℚ) : oGt x none = false := by cases x <;> rfl

/-- A comparison against an unavailable left-hand value is `False`. -/
theorem oGt_none_left (y : Option ℚ) : oGt none y = false := by cases y <;> rfl

/-- `close.diff(1)` has one row fewer than the close column. -/
theorem diffs_length (xs : List ℚ) : (diffs xs).length = xs.length - 1 := by
  simp [diffs]

/-- The RSI cell is unavailable until 15 candles exist. -/
theorem rsiLast_none {xs : List ℚ} (h : xs.length < 15) : rsiLast xs = none := by
  have hd : (diffs xs).length < 14 := by rw [diffs_length]; omega
  simp [rsiLast, hd]

/-- C7: on any series of at least 2 candles the technical analysis returns a
result (it does not raise); every indicator whose lookback window is not yet
full holds no value, and each comparison against an unavailable value
resolves to the bearish/neutral/decreasing default — in particular the
50-period and 200-period trend fields are `bearish` for short series. -/
theorem insufficient_history (now : String) (s : List Candle) (h2 : 2 ≤ s.length) :
    ∃ t, analyze_technical_indicators now s = some t ∧
      (s.length < 50 → t.analysis.trend.sma_trend = .bearish) ∧
      (s.length < 200 → t.analysis.trend.long_term_trend = .bearish) ∧
      (s.length < 26 → t.analysis.trend.macd_trend = .bearish) ∧
      (s.length < 15 → t.analysis.momentum.rsi_value = none ∧
        t.analysis.momentum.rsi_condition = .neutral) ∧
      (s.length < 20 → smaLast 20 (s.map Candle.close) = none ∧
        t.analysis.volatility.bb_position = .middle ∧
        t.analysis.volume.volume_trend = .decreasing ∧
        t.analysis.volume.volume_change = none) ∧
      (s.length < 8 → t.analysis.price_action.price_change_7d = none) := by
  have hlen : ¬ s.length < 2 := by omega
  simp only [analyze_technical_indicators, if_neg hlen]
  refine ⟨_, rfl, ?_, ?_, ?_, ?_, ?_, ?_⟩
  · intro h50
    have h : smaLast 50 (s.map Candle.close) = none := by
      simp [smaLast]
      omega
    simp [analyze_indicators, analyze_trend, h, oGt_none_right]
  · intro h200
    have h : smaLast 200 (s.map Candle.close) = none := by
      simp [smaLast]
      omega
    simp [analyze_indicators, analyze_trend, h, oGt_none_right]
  · intro h26
    have h : macdLast (s.map Candle.close) = none := by
      simp [macdLast]
      omega
    simp [analyze_indicators, analyze_trend, h, oGt_none_left]
  · intro h15
    have h : rsiLast (s.map Candle.close) = none := by
      apply rsiLast_none
      simp only [List.length_map]
      omega
    constructor
    · simp [analyze_indicators, analyze_momentum, h]
    · simp [analyze_indicators, analyze_momentum, h, rsi_condition, oGt, oLt]
  · intro h20
    have hc : smaLast 20 (s.map Candle.close) = none := by
      simp [smaLast]
      omega
    have hv : smaLast 20 (s.map Candle.volume) = none := by
      simp [smaLast]
      omega
    have hvar : varLast 20 (s.map Candle.close) = none := by
      simp [varLast]
      omega
    refine ⟨hc, ?_, ?_, ?_⟩
    · simp [analyze_indicators, analyze_volatility, hc, hvar, bbPosition]
    · simp [analyze_indicators, analyze_volume, hv, oGt_none_right]
    · simp [analyze_indicators, analyze_volume, hv]
  · intro h8
    have h : pctChangeLast 7 (s.map Candle.close) = none := by
      simp [pctChangeLast]
      omega
    simp [analyze_indicators, analyze_price_action, h]

/-- A 5-candle demo series for the insufficient-history scenario. -/
def shortDemoSeries : List Candle :=
  [⟨1, 1, 1, 1, 10⟩, ⟨1, 1, 1, 2, 10⟩, ⟨1, 1, 1, 3, 10⟩, ⟨1, 1, 1, 4, 10⟩, ⟨1, 1, 1, 5, 10⟩]

/-- Witness for C7 on a concrete 5-candle series. -/
theorem insufficient_history_witness :
    ∃ t, analyze_technical_indicators "" shortDemoSeries = some t ∧
      t.analysis.trend.sma_trend = .bearish ∧
      t.analysis.trend.long_term_trend = .bearish ∧
      t.analysis.momentum.rsi_value = none ∧
      t.analysis.volume.volume_trend = .decreasing := by
  obtain ⟨t, ht, h50, h200, h26, h15, h20, h8⟩ :=
    insufficient_history "" shortDemoSeries (by decide)
  exact ⟨t, ht, h50 (by decide), h200 (by decide), (h15 (by decide)).1,
    (h20 (by decide)).2.2.1⟩
